import Mathlib

/-
Verification of the concurrent SQL executor in
src/oracle_concurrent_executor.py (class OracleExecutor).

The database driver is modelled by a per-task environment (TaskEnv) that
fixes the result of each fallible driver operation the code performs:
pool acquisition, cursor.execute, cursor.fetchall and conn.commit, each
returning either a value or the textual description of the raised
exception.  Side effects relevant to the claims (releasing a pooled
connection, committing a transaction) are recorded in an explicit event
trace.  Wall-clock timing is opaque: the formatted elapsed-time string
the code interpolates into its error message is a field of the
environment.  Thread scheduling is modelled by an explicit completion
order: concurrent.futures.as_completed yields the submitted futures in
an arbitrary permutation of the submission indices.
-/

/-- A bound-parameter mapping (the optional `params` dict), as an
association list of name/value pairs.  Values are opaque strings. -/
abbrev Binds := List (String × String)

/-- Observable side effects of one `execute_sql` run: returning a
connection handle to the pool, or committing on a connection. -/
inductive Event where
  | released (c : Nat)
  | committed (c : Nat)
deriving DecidableEq

/-- The `result` payload of one statement: the dict built on the fetch
branch (`columns`/`rows`/`row_count`), the dict built on the commit
branch (`affected_rows`/`message`), or the plain error-message string
returned from the `except` handler. -/
inductive Payload where
  | query (columns : List String) (rows : List (List String)) (row_count : Nat)
  | mutation (affected_rows : Int) (message : String)
  | errorText (msg : String)
deriving DecidableEq

/-- Per-task model of the driver: the outcome of each fallible call the
code makes, the cursor metadata it reads, the formatted elapsed-time
string, and an optional worker-level fault (`escape`) that bypasses the
runner's own `except Exception` capture (observed by the dispatcher as
`future.result()` raising). -/
structure TaskEnv where
  acquire : Except String Nat
  exec : Option Binds → Except String Unit
  description : List String
  fetchall : Except String (List (List String))
  rowcount : Int
  commit : Except String Unit
  elapsed : String
  escape : Option String

/-- The whitespace characters removed by Python's `str.strip()`
(ASCII subset: space, tab, newline, carriage return, vertical tab,
form feed). -/
def isPySpace (c : Char) : Bool :=
  c == ' ' || c == '\t' || c == '\n' || c == '\r' ||
    c == Char.ofNat 11 || c == Char.ofNat 12

/-- Python `str.strip()`: drop leading and trailing whitespace. -/
def pyStrip (s : String) : String :=
  String.mk (((s.toList.dropWhile isPySpace).reverse.dropWhile isPySpace).reverse)

/-- Python `str.upper()` restricted to ASCII case mapping. -/
def pyUpper (s : String) : String :=
  String.mk (s.toList.map Char.toUpper)

/-- The classification test at line 103 of the source:
`sql.strip().upper().startswith('SELECT')`. -/
def isSelectQuery (sql : String) : Bool :=
  (pyUpper (pyStrip sql)).startsWith "SELECT"

/-- Python truthiness of the optional `params` dict (`if params:`):
false for `None` and for an empty mapping, true otherwise. -/
def pyTruthy (params : Option Binds) : Bool :=
  match params with
  | none => false
  | some l => !l.isEmpty

/-- The error message built at line 128 of the source:
elapsed-time string and the exception's textual description. -/
def errMsg (elapsed : String) (e : String) : String :=
  "SQL执行失败，耗时: " ++ elapsed ++ "秒，错误: " ++ e

/-- The body of the `with self.get_connection()` block in
`execute_sql` (lines 96-124): run `cursor.execute` with the bound
parameters exactly when `params` is truthy, then either fetch
(building the query dict) or commit (building the mutation dict).
Returns the raised exception or the payload, with the events emitted
inside the block. -/
def sqlBody (env : TaskEnv) (sql : String) (params : Option Binds)
    (fetch_results : Bool) (c : Nat) : Except String Payload × List Event :=
  match env.exec (if pyTruthy params then params else none) with
  | Except.error e => (Except.error e, [])
  | Except.ok _ =>
    if fetch_results && isSelectQuery sql then
      match env.fetchall with
      | Except.error e => (Except.error e, [])
      | Except.ok rows =>
          (Except.ok (Payload.query env.description rows rows.length), [])
    else
      match env.commit with
      | Except.error e => (Except.error e, [])
      | Except.ok _ =>
          (Except.ok (Payload.mutation env.rowcount "SQL执行成功"),
            [Event.committed c])

/-- The `get_connection` context manager (lines 65-77): acquire from the
pool; on acquisition failure the exception propagates and nothing is
released; otherwise the body runs and the `finally` clause releases the
connection exactly once on every exit path, re-raising any body
exception. -/
def get_connection (acquire : Except String Nat)
    (body : Nat → Except String Payload × List Event) :
    Except String Payload × List Event :=
  match acquire with
  | Except.error e => (Except.error e, [])
  | Except.ok c =>
    match body c with
    | (r, evs) => (r, evs ++ [Event.released c])

/-- Result of one `execute_sql` call: the returned (success, result)
pair and the event trace. -/
structure RunResult where
  success : Bool
  payload : Payload
  events : List Event
deriving DecidableEq

/-- `OracleExecutor.execute_sql` (lines 79-130): the whole body is
wrapped in `try/except Exception`, so every captured failure becomes a
`(False, error-message-string)` return and never propagates. -/
def execute_sql (env : TaskEnv) (sql : String) (params : Option Binds)
    (fetch_results : Bool) : RunResult :=
  match get_connection env.acquire (sqlBody env sql params fetch_results) with
  | (Except.ok payload, evs) =>
      { success := true, payload := payload, events := evs }
  | (Except.error e, evs) =>
      { success := false, payload := Payload.errorText (errMsg env.elapsed e),
        events := evs }

/-- Recognize a pool-release event. -/
def isReleaseEvent : Event → Bool
  | Event.released _ => true
  | _ => false

/-- Recognize a commit event. -/
def isCommitEvent : Event → Bool
  | Event.committed _ => true
  | _ => false

/-- Whether a trace contains a commit. -/
def hasCommit (evs : List Event) : Bool := evs.any isCommitEvent

/-- Recognize the plain error-message-string payload shape. -/
def isErrorTextPayload : Payload → Bool
  | Payload.errorText _ => true
  | _ => false

/-- One element of the `sql_list` argument of `execute_concurrent`:
`sql` is mandatory, `params`, `name` and `fetch_results` are looked up
with `.get` and so optional. -/
structure Request where
  sql : String
  params : Option Binds
  name : Option String
  fetch_results : Option Bool
deriving DecidableEq

/-- One element of the result list built by `execute_concurrent`
(lines 170-188): index, task name, truncated SQL preview, success flag
and payload. -/
structure Outcome where
  index : Nat
  name : String
  sqlPreview : String
  success : Bool
  result : Payload
deriving DecidableEq

/-- What the dispatcher observes from one submitted future: the value
returned by `execute_sql`, or a worker-level fault raised out of
`future.result()`. -/
def runTask (env : TaskEnv) (sql : String) (params : Option Binds)
    (fetch_results : Bool) : Except String RunResult :=
  match env.escape with
  | some e => Except.error e
  | none => Except.ok (execute_sql env sql params fetch_results)

/-- The SQL preview expression at lines 173 and 185:
`sql[:100] + '...' if len(sql) > 100 else sql`. -/
def truncPreview (sql : String) : String :=
  if sql.length > 100 then String.mk (sql.toList.take 100) ++ "..." else sql

/-- The (success, result) pair the dispatcher records for one future:
the runner's pair on normal completion, or `(False, "执行异常: " + str(e))`
when `future.result()` raises (lines 168-188). -/
def taskResultPair (env : TaskEnv) (sql : String) (params : Option Binds)
    (fetch_results : Bool) : Bool × Payload :=
  match runTask env sql params fetch_results with
  | Except.ok rr => (rr.success, rr.payload)
  | Except.error e => (false, Payload.errorText ("执行异常: " ++ e))

/-- The result dict appended for the request submitted at position `i`
(lines 156-188): name defaults to `SQL_{i+1}`, `fetch_results` defaults
to `True`, the preview is truncated, and the pair comes from the
future. -/
def mkOutcome (i : Nat) (req : Request) (env : TaskEnv) : Outcome :=
  { index := i
    name := req.name.getD ("SQL_" ++ toString (i + 1))
    sqlPreview := truncPreview req.sql
    success := (taskResultPair env req.sql req.params (req.fetch_results.getD true)).1
    result := (taskResultPair env req.sql req.params (req.fetch_results.getD true)).2 }

/-- The outcome produced for completion-order element `i`, when `i` is
a valid submission index. -/
def submitTask (envs : Nat → TaskEnv) (sql_list : List Request) (i : Nat) :
    Option Outcome :=
  (sql_list[i]?).map (fun req => mkOutcome i req (envs i))

/-- The sort key relation of `results.sort(key=lambda x: x['index'])`. -/
def outLe (a b : Outcome) : Prop := a.index ≤ b.index

instance : DecidableRel outLe := fun a b => Nat.decLe a.index b.index

instance : IsTotal Outcome outLe := ⟨fun a b => Nat.le_total a.index b.index⟩

instance : IsTrans Outcome outLe := ⟨fun _ _ _ => Nat.le_trans⟩

/-- Strict version of the sort key order, used to pin the sorted list
down uniquely (indices in one batch are distinct). -/
def outLt (a b : Outcome) : Prop := a.index < b.index

instance : IsAntisymm Outcome outLt :=
  ⟨fun _ _ h h2 => absurd (Nat.lt_trans h h2) (Nat.lt_irrefl _)⟩

/-- `OracleExecutor.execute_concurrent` (lines 132-198): submit every
request, collect one outcome per future in completion order
(`as_completed` yields the futures in the arbitrary permutation
`order`), then sort by original index ascending.  Python's stable
`list.sort` is modelled by insertion sort, which agrees with it
extensionally. -/
def execute_concurrent (envs : Nat → TaskEnv) (sql_list : List Request)
    (order : List Nat) : List Outcome :=
  List.insertionSort outLe (order.filterMap (submitTask envs sql_list))

/-- Placeholder request used to state positional lookups totally. -/
def dfltReq : Request :=
  { sql := "", params := none, name := none, fetch_results := none }

/-- The request submitted at position `i`. -/
def reqAt (sql_list : List Request) (i : Nat) : Request :=
  (sql_list[i]?).getD dfltReq

/-- The outcome of the request submitted at position `i`. -/
def outcomeAt (envs : Nat → TaskEnv) (sql_list : List Request) (i : Nat) :
    Outcome :=
  mkOutcome i (reqAt sql_list i) (envs i)

/-- The index field records the submission position. -/
theorem mkOutcome_index (i : Nat) (req : Request) (env : TaskEnv) :
    (mkOutcome i req env).index = i := rfl

/-- The index field of the positional outcome. -/
theorem outcomeAt_index (envs : Nat → TaskEnv) (sql_list : List Request)
    (i : Nat) : (outcomeAt envs sql_list i).index = i := rfl

/-- Case analysis of `execute_sql`: a commit event appears in the trace
exactly when the call succeeded and took the non-fetch branch. -/
theorem hasCommit_execute_sql (env : TaskEnv) (sql : String)
    (params : Option Binds) (fetch_results : Bool) :
    hasCommit (execute_sql env sql params fetch_results).events =
      ((execute_sql env sql params fetch_results).success &&
        !(fetch_results && isSelectQuery sql)) := by
  unfold execute_sql get_connection sqlBody
  cases hacq : env.acquire with
  | error e => simp [hasCommit, isCommitEvent]
  | ok c =>
    cases hx : env.exec (if pyTruthy params then params else none) with
    | error e => simp [hasCommit, isCommitEvent]
    | ok u =>
      cases hsel : (fetch_results && isSelectQuery sql) with
      | true =>
        cases hf : env.fetchall with
        | error e => simp [hasCommit, isCommitEvent]
        | ok rows => simp [hasCommit, isCommitEvent]
      | false =>
        cases hc : env.commit with
        | error e => simp [hasCommit, isCommitEvent]
        | ok u2 => simp [hasCommit, isCommitEvent]

/-- C2: for every SQL text and fetch flag, a successful `execute_sql`
commits exactly when it is not the case that the trimmed SQL begins
with SELECT (case-insensitively) and `fetch_results` is true; stated as
an unconditional boolean equation, which in addition records that a
failed run never ends in a successful commit. -/
theorem commit_policy_C2 (env : TaskEnv) (sql : String)
    (params : Option Binds) (fetch_results : Bool) :
    hasCommit (execute_sql env sql params fetch_results).events =
      ((execute_sql env sql params fetch_results).success &&
        !(fetch_results && isSelectQuery sql)) :=
  hasCommit_execute_sql env sql params fetch_results

/-- C3: `execute_sql` never propagates a failure (it is a total
function into `RunResult` by construction); whenever it reports
failure, the payload is the plain error string built from the elapsed
time and the exception's textual description, and no commit happened. -/
theorem failure_capture_C3 (env : TaskEnv) (sql : String)
    (params : Option Binds) (fetch_results : Bool)
    (h : (execute_sql env sql params fetch_results).success = false) :
    (∃ e, (execute_sql env sql params fetch_results).payload =
        Payload.errorText (errMsg env.elapsed e)) ∧
      hasCommit (execute_sql env sql params fetch_results).events = false := by
  constructor
  · unfold execute_sql at h ⊢
    cases hg : get_connection env.acquire (sqlBody env sql params fetch_results) with
    | mk r evs =>
      cases r with
      | ok p => rw [hg] at h; simp at h
      | error e => exact ⟨e, rfl⟩
  · have hc := hasCommit_execute_sql env sql params fetch_results
    rw [h] at hc
    simpa using hc

/-- C4: the release events of one `execute_sql` run are exactly one
release of the connection when acquisition succeeded, and none when
acquisition failed — no leak, no double release, on any exit path. -/
theorem release_balance_C4 (env : TaskEnv) (sql : String)
    (params : Option Binds) (fetch_results : Bool) :
    (execute_sql env sql params fetch_results).events.filter isReleaseEvent =
      (env.acquire.toOption.map Event.released).toList := by
  unfold execute_sql get_connection sqlBody
  cases hacq : env.acquire with
  | error e => simp [isReleaseEvent, Except.toOption]
  | ok c =>
    cases hx : env.exec (if pyTruthy params then params else none) with
    | error e => simp [isReleaseEvent, Except.toOption]
    | ok u =>
      cases hsel : (fetch_results && isSelectQuery sql) with
      | true =>
        cases hf : env.fetchall with
        | error e => simp [isReleaseEvent, Except.toOption]
        | ok rows => simp [isReleaseEvent, Except.toOption]
      | false =>
        cases hc : env.commit with
        | error e => simp [isReleaseEvent, Except.toOption]
        | ok u2 => simp [isReleaseEvent, isCommitEvent, Except.toOption]

/-- C9: the payload shape of `execute_sql` is determined by the success
flag — the payload is the plain error string exactly when the run
failed, hence a structured query or mutation record exactly when it
succeeded. -/
theorem payload_shape_C9 (env : TaskEnv) (sql : String)
    (params : Option Binds) (fetch_results : Bool) :
    isErrorTextPayload (execute_sql env sql params fetch_results).payload =
      !(execute_sql env sql params fetch_results).success := by
  unfold execute_sql get_connection sqlBody
  cases hacq : env.acquire with
  | error e => simp [isErrorTextPayload]
  | ok c =>
    cases hx : env.exec (if pyTruthy params then params else none) with
    | error e => simp [isErrorTextPayload]
    | ok u =>
      cases hsel : (fetch_results && isSelectQuery sql) with
      | true =>
        cases hf : env.fetchall with
        | error e => simp [isErrorTextPayload]
        | ok rows => simp [isErrorTextPayload]
      | false =>
        cases hc : env.commit with
        | error e => simp [isErrorTextPayload]
        | ok u2 => simp [isErrorTextPayload]

/-- C10: passing an empty parameter mapping is indistinguishable from
passing no parameters: the truthiness test `if params:` routes both to
the parameterless `cursor.execute` call. -/
theorem empty_params_C10 (env : TaskEnv) (sql : String) (fetch_results : Bool) :
    execute_sql env sql (some []) fetch_results =
      execute_sql env sql none fetch_results := rfl

/-- A filterMap whose function is everywhere `some` is a map. -/
theorem filterMap_eq_map_of_forall {α β : Type} (g : α → Option β) (f : α → β)
    (l : List α) (h : ∀ a ∈ l, g a = some (f a)) :
    l.filterMap g = l.map f := by
  induction l with
  | nil => rfl
  | cons x xs ih =>
    simp [List.filterMap_cons, h x (by simp),
      ih (fun a ha => h a (by simp [ha]))]

/-- For a valid submission index, the submitted task yields exactly the
positional outcome. -/
theorem submitTask_eq_some (envs : Nat → TaskEnv) (sql_list : List Request)
    (i : Nat) (h : i < sql_list.length) :
    submitTask envs sql_list i = some (outcomeAt envs sql_list i) := by
  unfold submitTask outcomeAt reqAt
  rw [List.getElem?_eq_getElem h]
  simp

/-- Master shape of the dispatcher: under any completion order that is
a permutation of the submission indices, the returned batch is exactly
the per-index outcomes in submission order. -/
theorem execute_concurrent_eq (envs : Nat → TaskEnv) (sql_list : List Request)
    (order : List Nat) (hperm : order.Perm (List.range sql_list.length)) :
    execute_concurrent envs sql_list order =
      (List.range sql_list.length).map (outcomeAt envs sql_list) := by
  have hfm : (List.range sql_list.length).filterMap (submitTask envs sql_list) =
      (List.range sql_list.length).map (outcomeAt envs sql_list) :=
    filterMap_eq_map_of_forall _ _ _
      (fun i hi => submitTask_eq_some envs sql_list i (List.mem_range.mp hi))
  have hcoll : (order.filterMap (submitTask envs sql_list)).Perm
      ((List.range sql_list.length).map (outcomeAt envs sql_list)) := by
    have h1 := hperm.filterMap (submitTask envs sql_list)
    rw [hfm] at h1
    exact h1
  have hres : (execute_concurrent envs sql_list order).Perm
      ((List.range sql_list.length).map (outcomeAt envs sql_list)) :=
    (List.perm_insertionSort outLe
      (order.filterMap (submitTask envs sql_list))).trans hcoll
  have hle : List.Sorted outLe (execute_concurrent envs sql_list order) :=
    List.sorted_insertionSort outLe _
  have hidx : ((execute_concurrent envs sql_list order).map Outcome.index).Perm
      (List.range sql_list.length) := by
    have h2 := hres.map Outcome.index
    have h3 : ((List.range sql_list.length).map
        (outcomeAt envs sql_list)).map Outcome.index =
        List.range sql_list.length := by
      rw [List.map_map]
      have h4 : (Outcome.index ∘ outcomeAt envs sql_list) = id := by
        funext i
        simp [outcomeAt_index]
      rw [h4, List.map_id]
    rw [h3] at h2
    exact h2
  have hnodup : ((execute_concurrent envs sql_list order).map Outcome.index).Nodup :=
    hidx.symm.nodup (List.nodup_range sql_list.length)
  have hne : List.Pairwise (fun a b : Outcome => a.index ≠ b.index)
      (execute_concurrent envs sql_list order) := List.pairwise_map.mp hnodup
  have hlt : List.Sorted outLt (execute_concurrent envs sql_list order) :=
    (List.Pairwise.and hle hne).imp
      (fun h5 => Nat.lt_of_le_of_ne h5.1 h5.2)
  have htarget : List.Sorted outLt
      ((List.range sql_list.length).map (outcomeAt envs sql_list)) := by
    refine List.pairwise_map.mpr ?_
    exact (List.pairwise_lt_range sql_list.length).imp
      (fun h6 => by simpa [outLt, outcomeAt_index] using h6)
  exact List.eq_of_perm_of_sorted hres hlt htarget

/-- A fully successful driver environment, for concrete evaluation. -/
def okTaskEnv : TaskEnv :=
  { acquire := Except.ok 0
    exec := fun _ => Except.ok ()
    description := ["X"]
    fetchall := Except.ok [["1"]]
    rowcount := 1
    commit := Except.ok ()
    elapsed := "0.00"
    escape := none }

/-- Concrete environment family in which every worker succeeds. -/
def wEnvs : Nat → TaskEnv := fun _ => okTaskEnv

/-- A concrete two-request batch: one read, one write. -/
def wReqs : List Request :=
  [ { sql := "SELECT 1 FROM DUAL", params := none, name := none,
      fetch_results := none },
    { sql := "UPDATE t SET x = 1", params := none, name := some "upd",
      fetch_results := none } ]

/-- C1: for every batch of N requests and every completion order (any
permutation of the submission indices), `execute_concurrent` returns
exactly N outcomes, the outcome at position i carries index i, and the
list is sorted by index ascending. -/
theorem order_restoration_C1 (envs : Nat → TaskEnv) (sql_list : List Request)
    (order : List Nat) (hperm : order.Perm (List.range sql_list.length)) :
    (execute_concurrent envs sql_list order).length = sql_list.length ∧
      (∀ i (h : i < (execute_concurrent envs sql_list order).length),
        ((execute_concurrent envs sql_list order).get ⟨i, h⟩).index = i) ∧
      List.Sorted outLe (execute_concurrent envs sql_list order) := by
  refine ⟨?_, ?_, List.sorted_insertionSort outLe _⟩
  · rw [execute_concurrent_eq envs sql_list order hperm]
    simp
  · intro i h
    have hlen : i < sql_list.length := by
      have h2 := h
      rw [execute_concurrent_eq envs sql_list order hperm] at h2
      simpa using h2
    have hsome : (execute_concurrent envs sql_list order)[i]? =
        some (outcomeAt envs sql_list i) := by
      rw [execute_concurrent_eq envs sql_list order hperm,
        List.getElem?_map, List.getElem?_range hlen]
      rfl
    have hget : (execute_concurrent envs sql_list order)[i]? =
        some ((execute_concurrent envs sql_list order).get ⟨i, h⟩) := by
      rw [List.get_eq_getElem]
      exact List.getElem?_eq_getElem h
    rw [hget] at hsome
    rw [Option.some.inj hsome, outcomeAt_index]

/-- Witness for C1: the two-request batch under the reversed completion
order [1, 0]. -/
theorem order_restoration_C1_witness :
    ([1, 0].Perm (List.range wReqs.length)) ∧
      ((execute_concurrent wEnvs wReqs [1, 0]).length = wReqs.length ∧
        (∀ i (h : i < (execute_concurrent wEnvs wReqs [1, 0]).length),
          ((execute_concurrent wEnvs wReqs [1, 0]).get ⟨i, h⟩).index = i) ∧
        List.Sorted outLe (execute_concurrent wEnvs wReqs [1, 0])) :=
  ⟨by decide, order_restoration_C1 wEnvs wReqs [1, 0] (by decide)⟩

/-- Positional lookup in the batch result: position i holds the outcome
of the request submitted at position i. -/
theorem execute_concurrent_getElem (envs : Nat → TaskEnv)
    (sql_list : List Request) (order : List Nat)
    (hperm : order.Perm (List.range sql_list.length)) (i : Nat)
    (h : i < sql_list.length) :
    (execute_concurrent envs sql_list order)[i]? =
      some (outcomeAt envs sql_list i) := by
  rw [execute_concurrent_eq envs sql_list order hperm, List.getElem?_map,
    List.getElem?_range h]
  rfl

/-- Environment whose worker raises a fault that escapes the runner's
own error capture. -/
def escEnv : TaskEnv := { okTaskEnv with escape := some "crash" }

/-- Environment family for the isolation witness: worker 1 crashes,
every other worker succeeds. -/
def wEnvs5 : Nat → TaskEnv := fun k => if k = 1 then escEnv else okTaskEnv

/-- C5: failure isolation.  The batch always holds exactly one outcome
per request; the outcome at position i is unchanged when the
environment of any other position j is replaced by an arbitrary faulty
one; a worker-level fault escaping the runner is converted into a
success=false outcome with the dispatcher's error string; and absent
such a fault the outcome's success flag is exactly the runner's own. -/
theorem failure_isolation_C5 (envs : Nat → TaskEnv) (sql_list : List Request)
    (order : List Nat) (j : Nat) (fault : TaskEnv)
    (hperm : order.Perm (List.range sql_list.length)) :
    (execute_concurrent envs sql_list order).length = sql_list.length ∧
      (∀ i, i < sql_list.length → i ≠ j →
        (execute_concurrent (fun k => if k = j then fault else envs k)
            sql_list order)[i]? =
          (execute_concurrent envs sql_list order)[i]?) ∧
      (∀ i e, i < sql_list.length → (envs i).escape = some e →
        ∃ o, (execute_concurrent envs sql_list order)[i]? = some o ∧
          o.success = false ∧
          o.result = Payload.errorText ("执行异常: " ++ e)) ∧
      (∀ i, i < sql_list.length → (envs i).escape = none →
        ∃ o, (execute_concurrent envs sql_list order)[i]? = some o ∧
          o.success = (execute_sql (envs i) (reqAt sql_list i).sql
            (reqAt sql_list i).params
            ((reqAt sql_list i).fetch_results.getD true)).success) := by
  refine ⟨?_, ?_, ?_, ?_⟩
  · rw [execute_concurrent_eq envs sql_list order hperm]
    simp
  · intro i hi hij
    rw [execute_concurrent_getElem (fun k => if k = j then fault else envs k)
        sql_list order hperm i hi,
      execute_concurrent_getElem envs sql_list order hperm i hi]
    simp [outcomeAt, hij]
  · intro i e hi hesc
    refine ⟨outcomeAt envs sql_list i,
      execute_concurrent_getElem envs sql_list order hperm i hi, ?_, ?_⟩
    · simp [outcomeAt, mkOutcome, taskResultPair, runTask, hesc]
    · simp [outcomeAt, mkOutcome, taskResultPair, runTask, hesc]
  · intro i hi hesc
    refine ⟨outcomeAt envs sql_list i,
      execute_concurrent_getElem envs sql_list order hperm i hi, ?_⟩
    simp [outcomeAt, mkOutcome, taskResultPair, runTask, hesc]

/-- Witness for C5: two requests, worker 1 crashing, position 0
shielded from a fault injected at position 0 of a sibling batch. -/
theorem failure_isolation_C5_witness :
    ([0, 1].Perm (List.range wReqs.length)) ∧
      ((execute_concurrent wEnvs5 wReqs [0, 1]).length = wReqs.length ∧
        (∀ i, i < wReqs.length → i ≠ 0 →
          (execute_concurrent (fun k => if k = 0 then escEnv else wEnvs5 k)
              wReqs [0, 1])[i]? =
            (execute_concurrent wEnvs5 wReqs [0, 1])[i]?) ∧
        (∀ i e, i < wReqs.length → (wEnvs5 i).escape = some e →
          ∃ o, (execute_concurrent wEnvs5 wReqs [0, 1])[i]? = some o ∧
            o.success = false ∧
            o.result = Payload.errorText ("执行异常: " ++ e)) ∧
        (∀ i, i < wReqs.length → (wEnvs5 i).escape = none →
          ∃ o, (execute_concurrent wEnvs5 wReqs [0, 1])[i]? = some o ∧
            o.success = (execute_sql (wEnvs5 i) (reqAt wReqs i).sql
              (reqAt wReqs i).params
              ((reqAt wReqs i).fetch_results.getD true)).success)) :=
  ⟨by decide, failure_isolation_C5 wEnvs5 wReqs [0, 1] 0 escEnv (by decide)⟩

/-- C6: the preview placed in the outcome of the request at position i
is the original SQL when it has at most 100 characters, and its first
100 characters followed by "..." otherwise. -/
theorem preview_formula_C6 (envs : Nat → TaskEnv) (sql_list : List Request)
    (order : List Nat) (hperm : order.Perm (List.range sql_list.length))
    (i : Nat) (h : i < sql_list.length) :
    ∃ o, (execute_concurrent envs sql_list order)[i]? = some o ∧
      o.sqlPreview = (if (reqAt sql_list i).sql.length ≤ 100
        then (reqAt sql_list i).sql
        else String.mk ((reqAt sql_list i).sql.toList.take 100) ++ "...") := by
  refine ⟨outcomeAt envs sql_list i,
    execute_concurrent_getElem envs sql_list order hperm i h, ?_⟩
  show truncPreview (reqAt sql_list i).sql = _
  unfold truncPreview
  by_cases hlen : (reqAt sql_list i).sql.length ≤ 100
  · rw [if_neg (by omega), if_pos hlen]
  · rw [if_pos (by omega), if_neg hlen]

/-- Witness for C6: the first request of the concrete batch. -/
theorem preview_formula_C6_witness :
    ∃ o, (execute_concurrent wEnvs wReqs [1, 0])[0]? = some o ∧
      o.sqlPreview = (if (reqAt wReqs 0).sql.length ≤ 100
        then (reqAt wReqs 0).sql
        else String.mk ((reqAt wReqs 0).sql.toList.take 100) ++ "...") :=
  preview_formula_C6 wEnvs wReqs [1, 0] (by decide) 0 (by decide)

/-- A 101-character SQL text. -/
def longSql : String := String.mk (List.replicate 101 'a')

/-- Single-request batch whose SQL exceeds the preview limit. -/
def cReq7 : Request :=
  { sql := longSql, params := none, name := none, fetch_results := none }

/-- Counterexample to C7 as stated: in this concrete single-request
batch the returned preview is 103 characters long (a 100-character
prefix plus the 3-character ellipsis), so it is not at most 100. -/
theorem preview_length_C7_cex :
    ¬ (∀ o ∈ execute_concurrent wEnvs [cReq7] [0],
        o.sqlPreview.length ≤ 100) := by decide

/-- The preview never exceeds 103 characters. -/
theorem truncPreview_length_le (sql : String) :
    (truncPreview sql).length ≤ 103 := by
  unfold truncPreview
  by_cases hlen : sql.length > 100
  · rw [if_pos hlen, String.length_append]
    have h1 : (String.mk (sql.toList.take 100)).length = 100 := by
      show (sql.toList.take 100).length = 100
      rw [List.length_take]
      have h2 : sql.toList.length = sql.length := rfl
      omega
    have h3 : ("...").length = 3 := rfl
    omega
  · rw [if_neg hlen]
    omega

/-- C7 amended: every preview in a batch result is at most 103
characters — at most 100 characters of SQL plus the 3-character
ellipsis — and when the original SQL exceeds 100 characters the
preview is exactly a 100-character prefix followed by "...". -/
theorem preview_length_C7 (envs : Nat → TaskEnv) (sql_list : List Request)
    (order : List Nat) (hperm : order.Perm (List.range sql_list.length))
    (i : Nat) (h : i < sql_list.length) :
    ∃ o, (execute_concurrent envs sql_list order)[i]? = some o ∧
      o.sqlPreview.length ≤ 103 ∧
      ((reqAt sql_list i).sql.length > 100 →
        ∃ t, o.sqlPreview = t ++ "..." ∧ t.length = 100) := by
  refine ⟨outcomeAt envs sql_list i,
    execute_concurrent_getElem envs sql_list order hperm i h,
    truncPreview_length_le (reqAt sql_list i).sql, ?_⟩
  intro hgt
  refine ⟨String.mk ((reqAt sql_list i).sql.toList.take 100), ?_, ?_⟩
  · show truncPreview (reqAt sql_list i).sql = _
    unfold truncPreview
    rw [if_pos hgt]
  · show ((reqAt sql_list i).sql.toList.take 100).length = 100
    rw [List.length_take]
    have h2 : (reqAt sql_list i).sql.toList.length =
      (reqAt sql_list i).sql.length := rfl
    omega

/-- Witness for the amended C7, on the over-long concrete request. -/
theorem preview_length_C7_witness :
    ∃ o, (execute_concurrent wEnvs [cReq7] [0])[0]? = some o ∧
      o.sqlPreview.length ≤ 103 ∧
      ((reqAt [cReq7] 0).sql.length > 100 →
        ∃ t, o.sqlPreview = t ++ "..." ∧ t.length = 100) :=
  preview_length_C7 wEnvs [cReq7] [0] (by decide) 0 (by decide)

/-- Single unnamed read request. -/
def cReq8 : Request :=
  { sql := "SELECT 1", params := none, name := none, fetch_results := none }

/-- Counterexample to C8 as stated: the unnamed request at 0-based
submission position 0 receives the label SQL_1, not SQL_0. -/
theorem default_name_C8_cex :
    ¬ (∀ o ∈ execute_concurrent wEnvs [cReq8] [0],
        o.name = "SQL_" ++ toString (0 : Nat)) := by decide

/-- C8 amended: a request submitted without an explicit name at 0-based
position i is labelled with the 1-based positional label SQL_(i+1). -/
theorem default_name_C8 (envs : Nat → TaskEnv) (sql_list : List Request)
    (order : List Nat) (hperm : order.Perm (List.range sql_list.length))
    (i : Nat) (h : i < sql_list.length)
    (hname : (reqAt sql_list i).name = none) :
    ∃ o, (execute_concurrent envs sql_list order)[i]? = some o ∧
      o.name = "SQL_" ++ toString (i + 1) := by
  refine ⟨outcomeAt envs sql_list i,
    execute_concurrent_getElem envs sql_list order hperm i h, ?_⟩
  show (reqAt sql_list i).name.getD ("SQL_" ++ toString (i + 1)) = _
  rw [hname]
  rfl

/-- Witness for the amended C8, on the unnamed concrete request. -/
theorem default_name_C8_witness :
    ∃ o, (execute_concurrent wEnvs [cReq8] [0])[0]? = some o ∧
      o.name = "SQL_" ++ toString (0 + 1) :=
  default_name_C8 wEnvs [cReq8] [0] (by decide) 0 (by decide) (by decide)

/-- Environment whose `cursor.execute` call raises. -/
def failEnv : TaskEnv :=
  { okTaskEnv with exec := fun _ => Except.error "ORA-00900" }

/-- Witness for C3: a failed execution returns the error-string payload
built from the elapsed time and the description, and commits nothing. -/
theorem failure_capture_C3_witness :
    (execute_sql failEnv "SELECT 1" none true).success = false ∧
      ((∃ e, (execute_sql failEnv "SELECT 1" none true).payload =
          Payload.errorText (errMsg failEnv.elapsed e)) ∧
        hasCommit (execute_sql failEnv "SELECT 1" none true).events = false) :=
  ⟨by decide, failure_capture_C3 failEnv "SELECT 1" none true (by decide)⟩
